import Mathlib

/-!
# TxLogout: the logout transaction of the session service

A shallow embedding of `service/session/transactions/logout.go`.

The Go receiver `tx *TxLogout` and the process-wide state the methods could
reach (the session store and the standard logger) are threaded explicitly
through every method as a `Sys` value.  Each method returns what the caller
observes (an `Outcome`) together with the state it leaves behind.

No method body dereferences its receiver, so a nil receiver behaves like any
other. The log is kept as the sequence of messages handed to the standard
logger; the prefix and timestamp the logger adds when writing are its own.
-/

namespace Transactions

/-! ## Surroundings of the transaction -/

/-- Modelled from the spec: the session record held by the Session Store, an
external collaborator that is not part of the source. It carries the session
ID, the owning user ID and the revocation flag. -/
structure Session where
  id : Nat
  user : Nat
  revoked : Bool
  deriving DecidableEq, Repr

/-- Modelled from the spec: the Session Store, an external collaborator that is
not part of the source, as the sequence of session records it holds. -/
abbrev Store := List Session

/-- Modelled from the spec: the store operation `listSessions(userID)`, the
ordered sequence of the session IDs owned by the user. -/
def listSessions (st : Store) (userID : Nat) : List Nat :=
  (st.filter (fun s => s.user == userID)).map (fun s => s.id)

/-- Modelled from the spec: the error taxonomy of section 7. The source declares
no error value of its own; a Go `error` result is embedded as `Option TxError`,
with `none` standing for `nil`. -/
inductive TxError where
  | InvalidState
  | PermissionDenied
  | NotFound
  | Unavailable
  | PartialRollback
  deriving DecidableEq, Repr

/-- Modelled from the spec: the effect descriptor returned through the
`interface{}` result of `Postcondition`, a snapshot of session IDs. A Go `nil`
interface value is embedded as `none`. -/
abbrev Effect := List Nat

/-- The `context.Context` argument: whether it has been cancelled, its deadline
if any, and the values it carries. -/
structure Context where
  cancelled : Bool
  deadline : Option Nat
  values : List (String × String)
  deriving DecidableEq, Repr

/-! ## The transaction and the state around it -/

/-- The Go type `TxLogout struct {}`: a struct without fields. -/
structure TxLogout where
  deriving DecidableEq, Repr

/-- Everything a method of `TxLogout` could read or write: the receiver, the
session store, and the messages handed to the standard logger so far (oldest
first). -/
structure Sys where
  tx : TxLogout
  store : Store
  log : List String
  deriving DecidableEq, Repr

/-- What the caller of a method observes: the effect and the error returned.
A method without a result of some kind returns `none` in that position. -/
structure Outcome where
  effect : Option Effect
  err : Option TxError
  deriving DecidableEq, Repr

/-- The library call `log.Printf(format)` without arguments, for a format that
holds no verb: one message, the format itself, is handed to the standard
logger. -/
def logPrintf (format : String) (s : Sys) : Sys :=
  { s with log := s.log ++ [format] }

/-- Go: `func (tx *TxLogout) Precondition() error { return nil }`. -/
def TxLogout.Precondition (s : Sys) : Outcome × Sys :=
  (⟨none, none⟩, s)

/-- Go: `func (tx *TxLogout) Postcondition(context.Context) (interface{}, error)`,
whose body is `log.Printf("Got a Logout request")` followed by `return nil, nil`.
The context parameter is unnamed in the source. -/
def TxLogout.Postcondition (_ctx : Context) (s : Sys) : Outcome × Sys :=
  let s1 := logPrintf "Got a Logout request" s
  (⟨none, none⟩, s1)

/-- Go: `func (tx *TxLogout) Commit() error { return nil }`. -/
def TxLogout.Commit (s : Sys) : Outcome × Sys :=
  (⟨none, none⟩, s)

/-- Go: `func (tx *TxLogout) Rollback() { }`: an empty body and no result. -/
def TxLogout.Rollback (s : Sys) : Outcome × Sys :=
  (⟨none, none⟩, s)

/-! ## Call histories -/

/-- One method call on a transaction, as a caller issues it. -/
inductive Call where
  | precondition
  | postcondition (ctx : Context)
  | commit
  | rollback
  deriving DecidableEq, Repr

/-- Dispatch of one call to the method it names. -/
def step (c : Call) (s : Sys) : Outcome × Sys :=
  match c with
  | .precondition => TxLogout.Precondition s
  | .postcondition ctx => TxLogout.Postcondition ctx s
  | .commit => TxLogout.Commit s
  | .rollback => TxLogout.Rollback s

/-- The state left by a sequence of calls issued in order from `s`. -/
def run (calls : List Call) (s : Sys) : Sys :=
  calls.foldl (fun acc c => (step c acc).2) s

/-- The errors returned by a sequence of calls issued in order from `s`. -/
def runErrs : List Call → Sys → List (Option TxError)
  | [], _ => []
  | c :: cs, s => (step c s).1.err :: runErrs cs (step c s).2

/-- The messages handed to the logger between the state `before` and the later
state `after`. -/
def emitted (before after : Sys) : List String :=
  after.log.drop before.log.length

/-- A newly constructed transaction placed in given surroundings. -/
def fresh (store : Store) (log : List String) : Sys :=
  ⟨{}, store, log⟩

def Call.isPrecondition : Call → Bool
  | .precondition => true
  | _ => false

def Call.isPostcondition : Call → Bool
  | .postcondition _ => true
  | _ => false

def Call.isCommit : Call → Bool
  | .commit => true
  | _ => false

/-- The history of a transaction that is still in the `Created` state: neither
`Precondition` nor `Postcondition` has been called on it. -/
def stillCreated (calls : List Call) : Bool :=
  calls.all (fun c => !c.isPrecondition && !c.isPostcondition)

/-- The history of a transaction on which `Precondition` has not been called. -/
def noPrecondition (calls : List Call) : Bool :=
  calls.all (fun c => !c.isPrecondition)

/-- The history of a transaction on which `Commit` has not been called. -/
def noCommit (calls : List Call) : Bool :=
  calls.all (fun c => !c.isCommit)

/-- Whether `Commit` has been called in the history and returned no error. -/
def committed : List Call → Sys → Bool
  | [], _ => false
  | c :: cs, s => (c.isCommit && (step c s).1.err.isNone) || committed cs (step c s).2

/-- A live context without deadline or values. -/
def background : Context := ⟨false, none, []⟩

/-- A cancelled context. -/
def cancelledCtx : Context := ⟨true, none, []⟩

/-- A store in which user 1 owns sessions 1 and 2 and user 2 owns session 3. -/
def sampleStore : Store :=
  [⟨1, 1, false⟩, ⟨2, 1, false⟩, ⟨3, 2, false⟩]

/-! ## Shared facts -/

theorem step_store (c : Call) (s : Sys) : (step c s).2.store = s.store := by
  cases c <;> rfl

theorem step_tx (c : Call) (s : Sys) : (step c s).2.tx = s.tx := by
  cases c <;> rfl

theorem step_err (c : Call) (s : Sys) : (step c s).1.err = none := by
  cases c <;> rfl

theorem step_effect (c : Call) (s : Sys) : (step c s).1.effect = none := by
  cases c <;> rfl

theorem run_store (calls : List Call) (s : Sys) : (run calls s).store = s.store := by
  induction calls generalizing s with
  | nil => rfl
  | cons c cs ih =>
    show (run cs (step c s).2).store = s.store
    rw [ih, step_store]

theorem emitted_postcondition (ctx : Context) (s : Sys) :
    emitted s (TxLogout.Postcondition ctx s).2 = ["Got a Logout request"] := by
  simp [emitted, TxLogout.Postcondition, logPrintf]

theorem emitted_self (s : Sys) : emitted s s = [] := by
  simp [emitted]

/-! ## Out-of-order calls -/

/-- C1 (as stated, refuted): on a newly constructed transaction, in the `Created`
state, `Commit` does not return `InvalidState`; it returns no error. -/
theorem commit_created_returns_nil_not_invalidState :
    stillCreated [] = true ∧
    ¬ ((TxLogout.Commit (run [] (fresh sampleStore []))).1.err = some TxError.InvalidState ∧
       (TxLogout.Commit (run [] (fresh sampleStore []))).2.store
         = (run [] (fresh sampleStore [])).store) := by
  decide

/-- C1 (amended): for every transaction still in the `Created` state (neither
`Precondition` nor `Postcondition` has been called on it), `Commit` returns no
error and leaves the store as it was. -/
theorem commit_in_created_no_error_no_mutation (calls : List Call) (s0 : Sys)
    (_h : stillCreated calls = true) :
    (TxLogout.Commit (run calls s0)).1.err = none ∧
    (TxLogout.Commit (run calls s0)).2.store = (run calls s0).store :=
  ⟨rfl, rfl⟩

theorem commit_in_created_no_error_no_mutation_witness :
    stillCreated [Call.rollback] = true ∧
    (TxLogout.Commit (run [Call.rollback] (fresh sampleStore []))).1.err = none ∧
    (TxLogout.Commit (run [Call.rollback] (fresh sampleStore []))).2.store
      = (run [Call.rollback] (fresh sampleStore [])).store :=
  ⟨by decide,
   commit_in_created_no_error_no_mutation [Call.rollback] (fresh sampleStore []) (by decide)⟩

/-- C4 (as stated, refuted): on a newly constructed transaction, on which
`Precondition` was never called, `Postcondition` does not fail with
`InvalidState`; it returns no error. -/
theorem postcondition_first_returns_nil_not_invalidState :
    noPrecondition [] = true ∧
    (TxLogout.Postcondition background (run [] (fresh sampleStore []))).1.err
      ≠ some TxError.InvalidState := by
  decide

/-- C4 (amended): for every transaction on which `Precondition` has not yet been
called, and every context, `Postcondition` returns the nil effect and no
error. -/
theorem postcondition_before_precondition_no_error (calls : List Call) (ctx : Context)
    (s0 : Sys) (_h : noPrecondition calls = true) :
    (TxLogout.Postcondition ctx (run calls s0)).1.effect = none ∧
    (TxLogout.Postcondition ctx (run calls s0)).1.err = none :=
  ⟨rfl, rfl⟩

theorem postcondition_before_precondition_no_error_witness :
    noPrecondition [Call.commit] = true ∧
    (TxLogout.Postcondition cancelledCtx (run [Call.commit] (fresh sampleStore []))).1.effect
      = none ∧
    (TxLogout.Postcondition cancelledCtx (run [Call.commit] (fresh sampleStore []))).1.err
      = none :=
  ⟨by decide,
   postcondition_before_precondition_no_error [Call.commit] cancelledCtx
     (fresh sampleStore []) (by decide)⟩

/-! ## Commit -/

/-- C2: `Commit` is idempotent. After a first `Commit`, a second `Commit` on the
same instance returns no error and leaves the transaction, the store and the
log equal to what the first `Commit` left. -/
theorem commit_idempotent (s : Sys) :
    (TxLogout.Commit (TxLogout.Commit s).2).1.err = none ∧
    (TxLogout.Commit (TxLogout.Commit s).2).2 = (TxLogout.Commit s).2 :=
  ⟨rfl, rfl⟩

/-- C3 (the code at the failing input): user 1 owns sessions 1 and 2.
`Precondition`, `Postcondition` and `Commit` are called in order and each
returns no error, yet both sessions of user 1 are still in the store. -/
theorem logout_sequence_keeps_sessions :
    listSessions sampleStore 1 = [1, 2] ∧
    runErrs [Call.precondition, Call.postcondition background, Call.commit]
      (fresh sampleStore []) = [none, none, none] ∧
    listSessions
      (run [Call.precondition, Call.postcondition background, Call.commit]
        (fresh sampleStore [])).store 1 = [1, 2] := by
  decide

/-! ## Precondition -/

/-- C5 (the code at the failing input): with an empty session store, where no
session and no user exists, `Precondition` returns no error. -/
theorem precondition_missing_target_returns_nil :
    (fresh [] []).store = [] ∧
    listSessions (fresh [] []).store 1 = [] ∧
    (TxLogout.Precondition (fresh [] [])).1.err = none := by
  decide

/-- C8: `Precondition` is read-only. Whatever the state around it, it leaves the
transaction, the store and the log as they were. -/
theorem precondition_read_only (s : Sys) :
    (TxLogout.Precondition s).2.tx = s.tx ∧
    (TxLogout.Precondition s).2.store = s.store ∧
    (TxLogout.Precondition s).2.log = s.log ∧
    emitted s (TxLogout.Precondition s).2 = [] :=
  ⟨rfl, rfl, rfl, emitted_self s⟩

/-! ## Rollback -/

/-- C6: for every transaction on which `Commit` has not been called, `Rollback`
leaves the store unchanged and reports no error to the caller. -/
theorem rollback_before_commit_no_write (calls : List Call) (s0 : Sys)
    (_h : noCommit calls = true) :
    (TxLogout.Rollback (run calls s0)).2.store = (run calls s0).store ∧
    (TxLogout.Rollback (run calls s0)).1.err = none :=
  ⟨rfl, rfl⟩

theorem rollback_before_commit_no_write_witness :
    noCommit [Call.precondition, Call.postcondition background] = true ∧
    (TxLogout.Rollback
      (run [Call.precondition, Call.postcondition background] (fresh sampleStore []))).2.store
      = (run [Call.precondition, Call.postcondition background] (fresh sampleStore [])).store ∧
    (TxLogout.Rollback
      (run [Call.precondition, Call.postcondition background] (fresh sampleStore []))).1.err
      = none :=
  ⟨by decide,
   rollback_before_commit_no_write [Call.precondition, Call.postcondition background]
     (fresh sampleStore []) (by decide)⟩

/-- C7 (as stated, refuted): after `Precondition`, `Postcondition` and a
successful `Commit`, `Rollback` gives no `PartialRollback` indication: it
returns nothing and hands no message to the logger. -/
theorem rollback_after_commit_gives_no_indication :
    committed [Call.precondition, Call.postcondition background, Call.commit]
      (fresh sampleStore []) = true ∧
    (TxLogout.Rollback
      (run [Call.precondition, Call.postcondition background, Call.commit]
        (fresh sampleStore []))).1.err ≠ some TxError.PartialRollback ∧
    emitted
      (run [Call.precondition, Call.postcondition background, Call.commit]
        (fresh sampleStore []))
      (TxLogout.Rollback
        (run [Call.precondition, Call.postcondition background, Call.commit]
          (fresh sampleStore []))).2 = [] := by
  refine ⟨by decide, by decide, ?_⟩
  exact emitted_self _

/-- C7 (amended): for every transaction on which `Commit` has already succeeded,
`Rollback` returns nothing and logs nothing, and it leaves the store as it was,
so every session absent from the store before `Rollback` is absent after it. -/
theorem rollback_after_commit_silent_and_keeps_store (calls : List Call) (s0 : Sys)
    (_h : committed calls s0 = true) :
    (TxLogout.Rollback (run calls s0)).1 = ⟨none, none⟩ ∧
    emitted (run calls s0) (TxLogout.Rollback (run calls s0)).2 = [] ∧
    (TxLogout.Rollback (run calls s0)).2.store = (run calls s0).store ∧
    ∀ x : Session, x ∉ (run calls s0).store →
      x ∉ (TxLogout.Rollback (run calls s0)).2.store :=
  ⟨rfl, emitted_self _, rfl, fun _ hx => hx⟩

theorem rollback_after_commit_silent_and_keeps_store_witness :
    committed [Call.commit] (fresh sampleStore []) = true ∧
    (TxLogout.Rollback (run [Call.commit] (fresh sampleStore []))).1 = ⟨none, none⟩ ∧
    emitted (run [Call.commit] (fresh sampleStore []))
      (TxLogout.Rollback (run [Call.commit] (fresh sampleStore []))).2 = [] ∧
    (TxLogout.Rollback (run [Call.commit] (fresh sampleStore []))).2.store
      = (run [Call.commit] (fresh sampleStore [])).store ∧
    ∀ x : Session, x ∉ (run [Call.commit] (fresh sampleStore [])).store →
      x ∉ (TxLogout.Rollback (run [Call.commit] (fresh sampleStore []))).2.store :=
  ⟨by decide,
   rollback_after_commit_silent_and_keeps_store [Call.commit] (fresh sampleStore [])
     (by decide)⟩

/-! ## The four methods together -/

/-- C9: `Precondition` returns nil, `Commit` returns nil and `Rollback` does
nothing, each leaving the whole state untouched and so logging nothing;
`Postcondition` returns the nil effect and the nil error after handing exactly
one message, "Got a Logout request", to the logger, and touches nothing else. -/
theorem methods_empty_or_log (s : Sys) (ctx : Context) :
    TxLogout.Precondition s = (⟨none, none⟩, s) ∧
    TxLogout.Commit s = (⟨none, none⟩, s) ∧
    TxLogout.Rollback s = (⟨none, none⟩, s) ∧
    (TxLogout.Postcondition ctx s).1 = ⟨none, none⟩ ∧
    (TxLogout.Postcondition ctx s).2.log = s.log ++ ["Got a Logout request"] ∧
    emitted s (TxLogout.Postcondition ctx s).2 = ["Got a Logout request"] ∧
    (TxLogout.Postcondition ctx s).2.store = s.store ∧
    (TxLogout.Postcondition ctx s).2.tx = s.tx ∧
    emitted s (TxLogout.Precondition s).2 = [] ∧
    emitted s (TxLogout.Commit s).2 = [] ∧
    emitted s (TxLogout.Rollback s).2 = [] :=
  ⟨rfl, rfl, rfl, rfl, rfl, emitted_postcondition ctx s, rfl, rfl,
   emitted_self s, emitted_self s, emitted_self s⟩

/-- C10: the result of `Postcondition` depends neither on its context nor on the
calls made before it. For any two contexts, any two call histories and any two
starting states, the two calls return the same effect and the same error and
hand the same messages to the logger. -/
theorem postcondition_independent_of_inputs (c1 c2 : Context) (h1 h2 : List Call)
    (s1 s2 : Sys) :
    (TxLogout.Postcondition c1 (run h1 s1)).1.effect
      = (TxLogout.Postcondition c2 (run h2 s2)).1.effect ∧
    (TxLogout.Postcondition c1 (run h1 s1)).1.err
      = (TxLogout.Postcondition c2 (run h2 s2)).1.err ∧
    emitted (run h1 s1) (TxLogout.Postcondition c1 (run h1 s1)).2
      = emitted (run h2 s2) (TxLogout.Postcondition c2 (run h2 s2)).2 := by
  refine ⟨rfl, rfl, ?_⟩
  rw [emitted_postcondition, emitted_postcondition]

end Transactions
